/-
Verification of the Allocine dataset scraper against its specification.

Shallow embedding of `src/allocine_dataset_scraper/scraper.py` and
`src/allocine_dataset_scraper/config.py`.  Python exceptions are modelled
with `Except PyExc`; a `bs4` detail-page document is modelled by the
`MovieDoc` structure recording exactly the query results the extractors
inspect (an absent element is `none`, and the Python faults that arise
from operating on `None` are reproduced explicitly).  The pandas
DataFrame is modelled as a list of rows sharing the fixed 13-column
schema, `drop_duplicates(subset=["id"])` as first-occurrence
deduplication on the id column, and `to_csv` as replacing the persisted
file by a header plus the current rows.

External libraries that are not part of the repository are abstracted
where no claim depends on their output value: `dateparser.parse` and
`unicodedata.normalize("NFKC", .)` (see `dateparser_parse` and `nfkc`);
`pd.to_timedelta` is modelled on the "Xh Ymin" token grammar the site
uses; Python `float` / `int` literal parsing is modelled on plain
decimal forms, returning `ValueError` on anything else, exactly as the
extractors rely on; a parsed float is kept as the exact decimal pair it
was parsed from (all the decimals the claims mention are exactly
representable either way).
-/

import Mathlib

set_option maxRecDepth 10000

deriving instance DecidableEq for Except

namespace Allocine

/-- Python exception classes that the scraper code can raise or catch. -/
inductive PyExc where
  | attributeError : PyExc
  | typeError : PyExc
  | valueError : PyExc
  | fileNotFoundError : PyExc
  | keyError : PyExc
deriving DecidableEq, Repr

/-- A cell value of the scraped table: Python `None`, `int`, `str` or
`float`.  Every float the scraper produces comes from parsing a finite
decimal string, so it is modelled exactly as the decimal pair it was
parsed from: `dec num scale` denotes the value `num / 10 ^ scale`
(see `decToRat`). -/
inductive Val where
  | null : Val
  | int (n : Int) : Val
  | str (s : String) : Val
  | dec (num : Nat) (scale : Nat) : Val
deriving DecidableEq, Repr

/-- The rational value denoted by a parsed decimal `Val.dec num scale`. -/
def decToRat (num scale : Nat) : ℚ :=
  (num : ℚ) / (10 : ℚ) ^ scale

/-- One row of the table: the ordered association list of
(column name, value) built by `_parse_movie`. -/
abbrev Row := List (String × Val)

/-- Python `dict.get(k)` on an association list (keys are unique in every
row the scraper builds, so first-match lookup is the dict lookup). -/
def pyGet (r : Row) (k : String) : Option Val :=
  (r.find? (fun p => p.1 == k)).map Prod.snd

/-- The value of the `id` column of a row, `none` when the column is
missing (pandas would raise a `KeyError` then). -/
def rowId (r : Row) : Option Val :=
  pyGet r "id"

/-- Python `str.strip()` on a character list (the core `String`
functions recurse on byte positions, so the Python string operations are
re-implemented structurally on `String.data`). -/
def trimList (l : List Char) : List Char :=
  ((l.dropWhile Char.isWhitespace).reverse.dropWhile Char.isWhitespace).reverse

/-- Python `str.strip()`. -/
def pyStrip (s : String) : String :=
  String.mk (trimList s.data)

/-- Python `str.split(c)` for a one-character separator, on character
lists; never returns an empty list. -/
def splitOnCharList (c : Char) : List Char → List (List Char)
  | [] => [[]]
  | d :: rest =>
    let r := splitOnCharList c rest
    if d = c then [] :: r
    else
      match r with
      | [] => [[d]]
      | h :: t => (d :: h) :: t

/-- Python `str.split(c)` for a one-character separator. -/
def pySplit (s : String) (c : Char) : List String :=
  (splitOnCharList c s.data).map String.mk

/-- Python `re.sub(r"\D", "", s)`: keep only decimal digits. -/
def stripNonDigits (s : String) : String :=
  String.mk (s.data.filter Char.isDigit)

/-- Python `re.sub(",", ".", s)`: replace every comma by a period. -/
def commaToDot (s : String) : String :=
  String.mk (s.data.map (fun c => if c = ',' then '.' else c))

/-- Whether `sub` is a prefix of `l`. -/
def isPrefixList : List Char → List Char → Bool
  | [], _ => true
  | _ :: _, [] => false
  | a :: as, b :: bs => a = b && isPrefixList as bs

/-- Whether `sub` occurs as a contiguous sublist of `l`. -/
def containsList (sub : List Char) : List Char → Bool
  | [] => isPrefixList sub []
  | c :: rest => isPrefixList sub (c :: rest) || containsList sub rest

/-- Python `sub in s` substring test. -/
def pyContains (sub s : String) : Bool :=
  containsList sub.data s.data

/-- The numeric value of a non-empty all-digit character list, `none`
otherwise. -/
def digitsValAux (acc : Nat) : List Char → Option Nat
  | [] => some acc
  | c :: rest =>
    if c.isDigit then digitsValAux (acc * 10 + (c.toNat - 48)) rest
    else none

/-- `Nat` parse of a plain digit string, `none` on the empty string or
any non-digit character. -/
def pyNat? (s : String) : Option Nat :=
  match s.data with
  | [] => none
  | l => digitsValAux 0 l

/-- Python `int(s)` restricted to the plain digit strings the scraper
feeds it (`re.sub(r"\D", "", ...)` output and url tokens); anything else
raises `ValueError`, as `int("")` or `int("abc")` does. -/
def pyInt (s : String) : Except PyExc Int :=
  match pyNat? s with
  | some n => .ok (n : Int)
  | none => .error .valueError

/-- Python `float(s)` restricted to the unsigned decimal forms the
scraper feeds it (`"2.4"`, `"21"`, `"3015"`, `".5"`, `"2."`); anything
else, in particular the empty string, raises `ValueError`. -/
def pyFloat (s : String) : Except PyExc Val :=
  match pySplit (pyStrip s) '.' with
  | [a] =>
    match pyNat? a with
    | some n => .ok (Val.dec n 0)
    | none => .error .valueError
  | [a, b] =>
    if a = "" ∧ b = "" then .error .valueError
    else
      match (if a = "" then some 0 else pyNat? a),
            (if b = "" then some 0 else pyNat? b) with
      | some n, some m => .ok (Val.dec (n * 10 ^ b.length + m) b.length)
      | _, _ => .error .valueError
  | _ => .error .valueError

/-- One token of a `pd.to_timedelta` string, e.g. `"2h"` or `"2min"`:
its contribution in minutes, `ValueError` when unparseable. -/
def timedeltaToken (tok : String) : Except PyExc Nat :=
  let digits := String.mk (tok.data.takeWhile Char.isDigit)
  let unit := String.mk (tok.data.dropWhile Char.isDigit)
  match pyNat? digits with
  | none => .error .valueError
  | some n =>
    if unit = "h" ∨ unit = "hr" ∨ unit = "hours" then .ok (n * 60)
    else if unit = "min" ∨ unit = "m" ∨ unit = "minutes" then .ok n
    else .error .valueError

/-- `pd.to_timedelta` on the "Xh Ymin"-style strings of the duration
field: total minutes, `ValueError` when unparseable. -/
def pdToTimedeltaMinutes (s : String) : Except PyExc Nat := do
  let toks := (pySplit (pyStrip s) ' ').filter (fun t => t ≠ "")
  let mins ← toks.mapM timedeltaToken
  pure (mins.foldl (· + ·) 0)

/-- `dateparser.parse` is an external library (not part of this
repository's source); no claim depends on the parsed date value, so it
is abstracted as: empty text parses to `None`, non-empty text parses to
a date value carrying the text. -/
def dateparser_parse (s : String) : Val :=
  if s = "" then Val.null else Val.str s

/-- `unicodedata.normalize("NFKC", s)` is an external library function;
no claim depends on the normal form, so it is abstracted as identity. -/
def nfkc (s : String) : String := s

/-- `", ".join(l)`. -/
def joinComma (l : List String) : String :=
  String.mk (((l.map String.data).intersperse (", ".data)).flatten)

/-- A `rating-item` block of the detail page: its full text, and the
text of its `stareval-note` / `stareval-review` spans when present. -/
structure RatingItem where
  text : String
  note : Option String
  review : Option String
deriving DecidableEq, Repr

/-- The parsed detail-page document (the `main#content-layout` subtree),
recording exactly the query results the thirteen extractors inspect.
`none` models a `find` call returning `None`. -/
structure MovieDoc where
  /-- `movie.find("span", class home)["href"]`: the href when the span
  exists, `none` when `find` returns `None`. -/
  home_href : Option String
  /-- `movie.find("div", class titlebar-title).text`. -/
  titlebar_text : Option String
  /-- `movie.find("span", class date).text`. -/
  date_text : Option String
  /-- the text of `movie.find("span", class spacer).next_sibling`;
  `none` when the spacer span is missing or has no text sibling. -/
  spacer_sibling : Option String
  /-- texts of the suffix-matched elements of the genres container,
  `none` when the container div is missing. -/
  genres_items : Option (List String)
  /-- per-container texts of `find_all` on the direction containers. -/
  directors_divs : List (List String)
  /-- texts of the `a`/`span` elements of the actor container. -/
  actors_items : Option (List String)
  /-- texts of all elements with class `nationality`. -/
  nationality_items : List String
  /-- all `div.rating-item` blocks. -/
  rating_items : List RatingItem
  /-- the synopsis section: `none` when the section is missing,
  `some none` when its `content-txt` div is missing. -/
  summary_section : Option (Option String)
deriving DecidableEq, Repr

/-- `AllocineScraper._get_movie_id`: strip non-digits from the home-span
href and parse as int.  A missing span makes Python subscript `None`,
raising `TypeError`; an href without digits makes `int("")` raise
`ValueError`. -/
def get_movie_id (doc : MovieDoc) : Except PyExc Val :=
  match doc.home_href with
  | none => .error .typeError
  | some h => (pyInt (stripNonDigits h)).map Val.int

/-- `AllocineScraper._get_movie_title`: `.text.strip()` of the titlebar
div; a missing div makes Python take `.text` of `None`, raising
`AttributeError`. -/
def get_movie_title (doc : MovieDoc) : Except PyExc Val :=
  match doc.titlebar_text with
  | none => .error .attributeError
  | some t => .ok (Val.str (pyStrip t))

/-- `AllocineScraper._get_movie_release_date`: `None` when the date span
is missing, otherwise the external date parse of the stripped text. -/
def get_movie_release_date (doc : MovieDoc) : Except PyExc Val :=
  match doc.date_text with
  | none => .ok Val.null
  | some t => .ok (dateparser_parse (pyStrip t))

/-- `AllocineScraper._get_movie_duration`: strip the sibling text of the
spacer span; empty text yields the empty string (documented quirk),
otherwise `pd.to_timedelta(...).components` and
`hours * 60 + minutes`.  A missing spacer span raises
`AttributeError` (`None.next_sibling`). -/
def get_movie_duration (doc : MovieDoc) : Except PyExc Val :=
  match doc.spacer_sibling with
  | none => .error .attributeError
  | some s =>
    let t := pyStrip s
    if t = "" then .ok (Val.str "")
    else (pdToTimedeltaMinutes t).map (fun total =>
      Val.int ((total / 60 % 24) * 60 + total % 60))

/-- `AllocineScraper._get_movie_genres`: `None` when the container div is
missing, otherwise the comma-join of the matched texts that contain no
newline. -/
def get_movie_genres (doc : MovieDoc) : Except PyExc Val :=
  match doc.genres_items with
  | none => .ok Val.null
  | some items =>
    .ok (Val.str (joinComma (items.filter (fun t => ! t.data.contains '\n'))))

/-- `AllocineScraper._get_movie_directors`: `None` when `find_all`
returns no container, otherwise the comma-join of the first container's
matched texts. -/
def get_movie_directors (doc : MovieDoc) : Except PyExc Val :=
  match doc.directors_divs with
  | [] => .ok Val.null
  | d :: _ => .ok (Val.str (joinComma d))

/-- `AllocineScraper._get_movie_actors`: `None` when the container div is
missing, otherwise the comma-join of the matched texts minus the first
entry (a section label). -/
def get_movie_actors (doc : MovieDoc) : Except PyExc Val :=
  match doc.actors_items with
  | none => .ok Val.null
  | some items => .ok (Val.str (joinComma (items.drop 1)))

/-- `AllocineScraper._get_movie_nationality`: comma-join of the stripped
texts of all nationality-class elements (an empty string when none). -/
def get_movie_nationality (doc : MovieDoc) : Except PyExc Val :=
  .ok (Val.str (joinComma (doc.nationality_items.map pyStrip)))

/-- The first `rating-item` block whose text contains the given label
(the `for` loops of the four rating extractors). -/
def findRating (label : String) (items : List RatingItem) : Option RatingItem :=
  items.find? (fun it => pyContains label it.text)

/-- `AllocineScraper._get_movie_press_rating`: in the first block whose
text contains "Presse", normalize the comma of the `stareval-note` text
to a period and parse as float; `None` when no block matches; a missing
note span raises `AttributeError` (`None.text`). -/
def get_movie_press_rating (doc : MovieDoc) : Except PyExc Val :=
  match findRating "Presse" doc.rating_items with
  | none => .ok Val.null
  | some it =>
    match it.note with
    | none => .error .attributeError
    | some s => pyFloat (commaToDot s)

/-- `AllocineScraper._get_movie_number_of_press_rating`: in the first
"Presse" block, strip non-digits from the `stareval-review` text and
parse as float; `None` when no block matches. -/
def get_movie_number_of_press_rating (doc : MovieDoc) : Except PyExc Val :=
  match findRating "Presse" doc.rating_items with
  | none => .ok Val.null
  | some it =>
    match it.review with
    | none => .error .attributeError
    | some s => pyFloat (stripNonDigits s)

/-- `AllocineScraper._get_movie_spec_rating`: as the press score, for the
block containing "Spectateurs". -/
def get_movie_spec_rating (doc : MovieDoc) : Except PyExc Val :=
  match findRating "Spectateurs" doc.rating_items with
  | none => .ok Val.null
  | some it =>
    match it.note with
    | none => .error .attributeError
    | some s => pyFloat (commaToDot s)

/-- `AllocineScraper._get_movie_number_of_spec_rating`: in the first
"Spectateurs" block, split the `stareval-review` text at the first
comma, strip non-digits and parse as float. -/
def get_movie_number_of_spec_rating (doc : MovieDoc) : Except PyExc Val :=
  match findRating "Spectateurs" doc.rating_items with
  | none => .ok Val.null
  | some it =>
    match it.review with
    | none => .error .attributeError
    | some s => pyFloat (stripNonDigits ((pySplit s ',').headD ""))

/-- `AllocineScraper._get_movie_summary`: a missing synopsis section
raises `AttributeError` (`None.find`); a missing text container yields
`None`; otherwise the stripped, NFKC-normalized text. -/
def get_movie_summary (doc : MovieDoc) : Except PyExc Val :=
  match doc.summary_section with
  | none => .error .attributeError
  | some none => .ok Val.null
  | some (some s) => .ok (Val.str (nfkc (pyStrip s)))

/-- `AllocineScraper.movie_infos`: the fixed ordered 13-column schema. -/
def movie_infos : List String :=
  ["id", "title", "release_date", "duration", "genres", "directors",
   "actors", "nationality", "press_rating", "number_of_press_rating",
   "spec_rating", "number_of_spec_rating", "summary"]

/-- `getattr(self, "_get_movie_" + info)(parser_movie)`: dispatch of the
extractor by field name (an unknown name makes `getattr` raise
`AttributeError`). -/
def getInfo (doc : MovieDoc) (info : String) : Except PyExc Val :=
  if info = "id" then get_movie_id doc
  else if info = "title" then get_movie_title doc
  else if info = "release_date" then get_movie_release_date doc
  else if info = "duration" then get_movie_duration doc
  else if info = "genres" then get_movie_genres doc
  else if info = "directors" then get_movie_directors doc
  else if info = "actors" then get_movie_actors doc
  else if info = "nationality" then get_movie_nationality doc
  else if info = "press_rating" then get_movie_press_rating doc
  else if info = "number_of_press_rating" then get_movie_number_of_press_rating doc
  else if info = "spec_rating" then get_movie_spec_rating doc
  else if info = "number_of_spec_rating" then get_movie_number_of_spec_rating doc
  else if info = "summary" then get_movie_summary doc
  else .error .attributeError

/-- The per-field loop of `AllocineScraper._parse_movie`: for each field
name, call the extractor; an `AttributeError` is caught, logged as
(current `movie_datas.get("id")`, field name) and recorded as `None`;
any other exception propagates out of `_parse_movie`.  Accumulates the
row (the `movie_datas` dict in insertion order) and the error log. -/
def parseFieldsGo (doc : MovieDoc) :
    List String → Row → List (Option Val × String) →
    Except PyExc (Row × List (Option Val × String))
  | [], acc, log => .ok (acc, log)
  | info :: rest, acc, log =>
    match getInfo doc info with
    | .ok v => parseFieldsGo doc rest (acc ++ [(info, v)]) log
    | .error .attributeError =>
      parseFieldsGo doc rest (acc ++ [(info, Val.null)])
        (log ++ [(pyGet acc "id", info)])
    | .error e => .error e

/-- The record construction of `_parse_movie`: run all thirteen
extractors in schema order with per-field `AttributeError` isolation. -/
def parseFields (doc : MovieDoc) : Except PyExc (Row × List (Option Val × String)) :=
  parseFieldsGo doc movie_infos [] []

/-- `drop_duplicates(subset=["id"])` with an explicit seen-id
accumulator: keep each row whose id value has not occurred before
(pandas keeps the first occurrence; `NaN` ids count as equal). -/
def dedupByIdAux (seen : List (Option Val)) : List Row → List Row
  | [] => []
  | r :: rs =>
    if rowId r ∈ seen then dedupByIdAux seen rs
    else r :: dedupByIdAux (rowId r :: seen) rs

/-- `DataFrame.drop_duplicates(subset=["id"])`, keeping the first row of
each id. -/
def dedupById (rows : List Row) : List Row :=
  dedupByIdAux [] rows

/-- The store update of `_parse_movie`: concatenate the new row (or
start a fresh schema-ordered table when the store is empty) and drop
duplicate ids. -/
def appendRecord (df : List Row) (r : Row) : List Row :=
  dedupById (if df.isEmpty then [r] else df ++ [r])

/-- The persisted CSV snapshot: the header line and the data rows
written by `to_csv(..., index=False)`. -/
structure File where
  header : List String
  rows : List Row
deriving DecidableEq, Repr

/-- The file `to_csv` writes for a given table (the column order of the
scraper's DataFrame is always the fixed schema order). -/
def fileOf (df : List Row) : File :=
  ⟨movie_infos, df⟩

/-- `ScraperConfig`: the fields the scraping core reads. -/
structure Config where
  number_of_pages : Int
  from_page : Int
  pause_scraping : Int × Int
  append_result : Bool
deriving DecidableEq, Repr

/-- `ScraperConfig.validate_pause_range`: rejects a pause range whose
minimum exceeds its maximum, with a `ValueError`. -/
def validate_pause_range (v : Int × Int) : Except PyExc (Int × Int) :=
  if v.1 > v.2 then .error .valueError else .ok v

/-- Construction of a `ScraperConfig`: pydantic validates
`number_of_pages > 0`, `from_page > 0` and the pause range. -/
def mkScraperConfig (number_of_pages from_page : Int) (pause : Int × Int)
    (append_result : Bool) : Except PyExc Config :=
  if number_of_pages ≤ 0 then .error .valueError
  else if from_page ≤ 0 then .error .valueError
  else
    match validate_pause_range pause with
    | .error e => .error e
    | .ok p => .ok ⟨number_of_pages, from_page, p, append_result⟩

/-- Python `random.randrange(lo, hi)` fed by one draw `r` of the random
source: a uniform pick in `[lo, hi)` when the range is non-empty, and a
`ValueError` ("empty range for randrange") when `hi ≤ lo`. -/
def randrange (lo hi : Int) (r : Nat) : Except PyExc Int :=
  if lo < hi then .ok (lo + (r : Int) % (hi - lo)) else .error .valueError

/-- `AllocineScraper._randomize_waiting_time`:
`randrange(*self.config.pause_scraping)`. -/
def randomize_waiting_time (cfg : Config) (r : Nat) : Except PyExc Int :=
  randrange cfg.pause_scraping.1 cfg.pause_scraping.2 r

/-- `int(url.split("=")[-1].split(".")[0])`: the movie id embedded in a
detail-page link. -/
def parseUrlId (url : String) : Except PyExc Int :=
  pyInt ((pySplit ((pySplit url '=').getLastD "") '.').headD "")

/-- The url filter of `AllocineScraper._parse_page` in append mode: the
list comprehension keeps the urls whose embedded id is not excluded,
evaluating `int(...)` left to right (a parse failure raises out of
`_parse_page`). -/
def filterUrls (exclude_ids : List Int) : List String → Except PyExc (List String)
  | [] => .ok []
  | u :: rest =>
    match parseUrlId u with
    | .error e => .error e
    | .ok i =>
      match filterUrls exclude_ids rest with
      | .error e => .error e
      | .ok r => .ok (if i ∈ exclude_ids then r else u :: r)

/-- `AllocineScraper._parse_page`, taking the already-extracted ordered
link list of the listing document (the `h2.meta-title` hrefs): the
identity unless append mode is on and the exclusion list non-empty, in
which case already-seen ids are filtered out. -/
def parse_page (append_result : Bool) (exclude_ids : List Int)
    (urls : List String) : Except PyExc (List String) :=
  if append_result && !exclude_ids.isEmpty then filterUrls exclude_ids urls
  else .ok urls

/-- The mutable scraper state during a run: the DataFrame, the exclusion
list, the persisted file (`none` before any write), and the position in
the random stream. -/
structure ScrapeState where
  df : List Row
  exclude_ids : List Int
  file : Option File
  rngIdx : Nat
deriving DecidableEq, Repr

/-- `AllocineScraper._parse_movie` on one detail document: build the row
with per-field fault isolation, update the DataFrame with
duplicate-drop on id, and persist the whole table; a propagating
extractor exception leaves the state untouched. -/
def parse_movie (doc : MovieDoc) (st : ScrapeState) : Except PyExc ScrapeState :=
  match parseFields doc with
  | .error e => .error e
  | .ok (row, _log) =>
    let df := appendRecord st.df row
    .ok { st with df := df, file := some (fileOf df) }

/-- The inner loop of `AllocineScraper.scraping_movies`: for each url,
fetch the detail document, parse and persist it, record the embedded id
in the exclusion list, then sleep a randomized pause. -/
def detailLoop (cfg : Config) (rng : Nat → Nat) (fetchMovie : String → MovieDoc) :
    List String → ScrapeState → Except PyExc ScrapeState
  | [], st => .ok st
  | url :: rest, st =>
    match parse_movie (fetchMovie url) st with
    | .error e => .error e
    | .ok st1 =>
      match parseUrlId url with
      | .error e => .error e
      | .ok i =>
        match randomize_waiting_time cfg (rng st1.rngIdx) with
        | .error e => .error e
        | .ok _ =>
          detailLoop cfg rng fetchMovie rest
            { st1 with exclude_ids := st1.exclude_ids ++ [i], rngIdx := st1.rngIdx + 1 }

/-- The outer loop of `AllocineScraper.scraping_movies`: for each page
number, sleep a randomized pause, fetch and parse the listing page,
walk its detail links, then sleep again. -/
def pageLoop (cfg : Config) (rng : Nat → Nat) (pages : Int → List String)
    (fetchMovie : String → MovieDoc) :
    List Int → ScrapeState → Except PyExc ScrapeState
  | [], st => .ok st
  | n :: ns, st =>
    match randomize_waiting_time cfg (rng st.rngIdx) with
    | .error e => .error e
    | .ok _ =>
      let st0 : ScrapeState := { st with rngIdx := st.rngIdx + 1 }
      match parse_page cfg.append_result st0.exclude_ids (pages n) with
      | .error e => .error e
      | .ok urls =>
        match detailLoop cfg rng fetchMovie urls st0 with
        | .error e => .error e
        | .ok st1 =>
          match randomize_waiting_time cfg (rng st1.rngIdx) with
          | .error e => .error e
          | .ok _ => pageLoop cfg rng pages fetchMovie ns { st1 with rngIdx := st1.rngIdx + 1 }

/-- `AllocineScraper.scraping_movies`: walk the configured consecutive
page numbers `from_page, ..., from_page + number_of_pages - 1`. -/
def scraping_movies (cfg : Config) (rng : Nat → Nat) (pages : Int → List String)
    (fetchMovie : String → MovieDoc) (st : ScrapeState) : Except PyExc ScrapeState :=
  pageLoop cfg rng pages fetchMovie
    ((List.range cfg.number_of_pages.toNat).map (fun k => cfg.from_page + k)) st

/-- The scraper state right after `__init__` in non-append mode: the
class-level empty DataFrame with the fixed 13-column schema, an empty
exclusion list, and no file written yet. -/
def initState : ScrapeState :=
  ⟨[], [], none, 0⟩

/-- `df["id"].dropna().astype(int).tolist()`: the exclusion list derived
from a loaded snapshot; a missing id column raises `KeyError`, a
non-integral id value makes `astype(int)` raise. -/
def derive_exclude_ids : List Row → Except PyExc (List Int)
  | [] => .ok []
  | r :: rs =>
    match derive_exclude_ids rs with
    | .error e => .error e
    | .ok rest =>
      match rowId r with
      | none => .error .keyError
      | some Val.null => .ok rest
      | some (Val.int n) => .ok (n :: rest)
      | some _ => .error .valueError

/-- `AllocineScraper.__init__`: in append mode, seed the DataFrame and
exclusion list from the prior snapshot (`load = none` models a
`read_csv` failure on a missing or corrupt file); any exception in the
seeding block is logged and re-raised as `FileNotFoundError`. -/
def scraper_init (cfg : Config) (load : Option File) : Except PyExc ScrapeState :=
  if cfg.append_result then
    match load with
    | none => .error .fileNotFoundError
    | some f =>
      match derive_exclude_ids f.rows with
      | .error _ => .error .fileNotFoundError
      | .ok ids => .ok ⟨f.rows, ids, some f, 0⟩
  else .ok initState

/-- A whole program run: construct the scraper (seeding in append mode),
then scrape; construction precedes every fetch. -/
def run_scraper (cfg : Config) (load : Option File) (rng : Nat → Nat)
    (pages : Int → List String) (fetchMovie : String → MovieDoc) :
    Except PyExc ScrapeState :=
  match scraper_init cfg load with
  | .error e => .error e
  | .ok st => scraping_movies cfg rng pages fetchMovie st

/-- The value a field contributes to the row when its `AttributeError`
is caught: the extracted value, or `None` on the caught fault. -/
def extractVal (doc : MovieDoc) (info : String) : Val :=
  match getInfo doc info with
  | .ok v => v
  | .error _ => Val.null

/-- Whether a field's extractor raises on this document. -/
def fieldFails (doc : MovieDoc) (info : String) : Bool :=
  match getInfo doc info with
  | .ok _ => false
  | .error _ => true

/-! ### Concrete fixtures (used by counterexamples and witnesses) -/

/-- A detail document on which every `find` comes back empty; in
particular the id extractor cannot locate the home span. -/
def noDoc : MovieDoc :=
  ⟨none, none, none, none, none, [], none, [], [], none⟩

/-- A fully populated detail document (the values mirror the repository
test fixture for movie 275220). -/
def goodDoc : MovieDoc where
  home_href := some "/film/fichefilm_gen_cfilm=275220.html"
  titlebar_text := some "Minuit dans le ciel"
  date_text := some "23 decembre 2020"
  spacer_sibling := some " 2h 2min"
  genres_items := some ["Drame", "Science Fiction"]
  directors_divs := [["George Clooney"]]
  actors_items := some ["Avec", "George Clooney", "Felicity Jones"]
  nationality_items := ["U.S.A."]
  rating_items := [⟨"Presse 2,5", some "2,5", some "21 critiques"⟩,
                   ⟨"Spectateurs 2,4", some "2,4", some "3 015 notes, 303 critiques"⟩]
  summary_section := some (some "Un film.")

/-- The row the extractor set produces from `goodDoc`. -/
def goodRow : Row :=
  [("id", Val.int 275220), ("title", Val.str "Minuit dans le ciel"),
   ("release_date", Val.str "23 decembre 2020"), ("duration", Val.int 122),
   ("genres", Val.str "Drame, Science Fiction"),
   ("directors", Val.str "George Clooney"),
   ("actors", Val.str "George Clooney, Felicity Jones"),
   ("nationality", Val.str "U.S.A."),
   ("press_rating", Val.dec 25 1), ("number_of_press_rating", Val.dec 21 0),
   ("spec_rating", Val.dec 24 1), ("number_of_spec_rating", Val.dec 3015 0),
   ("summary", Val.str "Un film.")]

/-- A row with the same id as `goodRow` but different field values. -/
def goodRowAlt : Row :=
  [("id", Val.int 275220), ("title", Val.str "Autre titre"),
   ("release_date", Val.null), ("duration", Val.str ""),
   ("genres", Val.null), ("directors", Val.null), ("actors", Val.null),
   ("nationality", Val.str ""), ("press_rating", Val.null),
   ("number_of_press_rating", Val.null), ("spec_rating", Val.null),
   ("number_of_spec_rating", Val.null), ("summary", Val.null)]

/-- The state a fresh one-page, one-link run over `goodDoc` ends in. -/
def goodRunState : ScrapeState :=
  ⟨[goodRow], [275220], some ⟨movie_infos, [goodRow]⟩, 3⟩

/-- A store state already holding the `goodDoc` record. -/
def goodRowState : ScrapeState :=
  ⟨[goodRow], [], some ⟨movie_infos, [goodRow]⟩, 0⟩

/-- `goodDoc` with an unparseable press score text: the press-rating
extractor raises `ValueError` (`float("N/A")`), a fault class the
per-field handler does not catch. -/
def badPressDoc : MovieDoc :=
  { goodDoc with rating_items := [⟨"Presse", some "N/A", some "21 critiques"⟩] }

/-- `goodDoc` with the titlebar missing: the title extractor raises
`AttributeError`, the fault class the per-field handler does catch. -/
def noTitleDoc : MovieDoc :=
  { goodDoc with titlebar_text := none }

/-! ### Properties of the duplicate drop on the id column -/

lemma dedupByIdAux_ids_not_seen (rows : List Row) :
    ∀ seen, ∀ v ∈ (dedupByIdAux seen rows).map rowId, v ∉ seen := by
  induction rows with
  | nil => intro seen v hv; simp [dedupByIdAux] at hv
  | cons r rs ih =>
    intro seen v hv
    by_cases hmem : rowId r ∈ seen
    · exact ih seen v (by simpa [dedupByIdAux, hmem] using hv)
    · simp only [dedupByIdAux, if_neg hmem, List.map_cons, List.mem_cons] at hv
      rcases hv with rfl | hv
      · exact hmem
      · have := ih (rowId r :: seen) v hv
        exact fun hs => this (List.mem_cons_of_mem _ hs)

lemma dedupByIdAux_ids_nodup (rows : List Row) :
    ∀ seen, ((dedupByIdAux seen rows).map rowId).Nodup := by
  induction rows with
  | nil => intro seen; simp [dedupByIdAux]
  | cons r rs ih =>
    intro seen
    by_cases hmem : rowId r ∈ seen
    · simpa [dedupByIdAux, hmem] using ih seen
    · simp only [dedupByIdAux, if_neg hmem, List.map_cons, List.nodup_cons]
      refine ⟨fun hv => ?_, ih (rowId r :: seen)⟩
      exact dedupByIdAux_ids_not_seen rs (rowId r :: seen) (rowId r) hv
        (List.mem_cons_self _ _)

/-- After any append, the store has pairwise distinct id values. -/
lemma appendRecord_ids_nodup (df : List Row) (r : Row) :
    ((appendRecord df r).map rowId).Nodup := by
  unfold appendRecord dedupById
  split <;> exact dedupByIdAux_ids_nodup _ []

lemma dedupByIdAux_append_dup (rows : List Row) :
    ∀ (seen : List (Option Val)) (r' : Row),
      (rows.map rowId).Nodup →
      (∀ v ∈ rows.map rowId, v ∉ seen) →
      (rowId r' ∈ rows.map rowId ∨ rowId r' ∈ seen) →
      dedupByIdAux seen (rows ++ [r']) = rows := by
  induction rows with
  | nil =>
    intro seen r' _ _ hmem
    rcases hmem with h | h
    · simp at h
    · simp [dedupByIdAux, h]
  | cons r rs ih =>
    intro seen r' hnd hdis hmem
    have hrseen : rowId r ∉ seen := hdis _ (by simp)
    simp only [List.cons_append, dedupByIdAux, if_neg hrseen]
    congr 1
    simp only [List.map_cons, List.nodup_cons] at hnd
    refine ih (rowId r :: seen) r' hnd.2 ?_ ?_
    · intro v hv
      simp only [List.mem_cons, not_or]
      exact ⟨fun h => hnd.1 (h ▸ hv), hdis _ (by simp [hv])⟩
    · rcases hmem with h | h
      · simp only [List.map_cons, List.mem_cons] at h
        rcases h with h | h
        · exact Or.inr (by simp [h])
        · exact Or.inl h
      · exact Or.inr (by simp [h])

/-- Appending a row whose id is already present leaves a
duplicate-free store unchanged. -/
lemma appendRecord_mem_id (df : List Row) (r' : Row)
    (hnd : (df.map rowId).Nodup) (hmem : rowId r' ∈ df.map rowId) :
    appendRecord df r' = df := by
  have hne : df ≠ [] := by
    rintro rfl; simp at hmem
  unfold appendRecord dedupById
  rw [if_neg (by simpa [List.isEmpty_iff] using hne)]
  exact dedupByIdAux_append_dup df [] r' hnd (by simp) (Or.inl hmem)

lemma appendRecord_nil (r : Row) : appendRecord [] r = [r] := by
  simp [appendRecord, dedupById, dedupByIdAux]

/-! ### The state invariant of the scraping loops: the persisted file is
absent until the first record is parsed, and from then on always holds
exactly the current duplicate-free table under the fixed header. -/

/-- Relation between the in-memory table and the persisted file that
`scraping_movies` maintains from the fresh initial state. -/
def StoreInv (st : ScrapeState) : Prop :=
  (st.df = [] ∧ st.file = none) ∨
    (st.file = some (fileOf st.df) ∧ (st.df.map rowId).Nodup)

lemma parse_movie_ok_storeInv {doc : MovieDoc} {st st' : ScrapeState}
    (h : parse_movie doc st = .ok st') : StoreInv st' := by
  unfold parse_movie at h
  rcases hp : parseFields doc with e | ⟨row, log⟩ <;> rw [hp] at h
  · cases h
  · cases h
    exact Or.inr ⟨rfl, appendRecord_ids_nodup st.df row⟩

lemma detailLoop_storeInv (cfg : Config) (rng : Nat → Nat)
    (fetchMovie : String → MovieDoc) :
    ∀ (urls : List String) (st st' : ScrapeState), StoreInv st →
      detailLoop cfg rng fetchMovie urls st = .ok st' → StoreInv st' := by
  intro urls
  induction urls with
  | nil => intro st st' hst h; cases h; exact hst
  | cons url rest ih =>
    intro st st' hst h
    rcases h1 : parse_movie (fetchMovie url) st with e | st1 <;>
      simp only [detailLoop, h1] at h
    · cases h
    rcases h2 : parseUrlId url with e | i <;> simp only [h2] at h
    · cases h
    rcases h3 : randomize_waiting_time cfg (rng st1.rngIdx) with e | v <;>
      simp only [h3] at h
    · cases h
    refine ih _ st' ?_ h
    have := parse_movie_ok_storeInv h1
    unfold StoreInv at this ⊢
    simpa using this

lemma pageLoop_storeInv (cfg : Config) (rng : Nat → Nat)
    (pages : Int → List String) (fetchMovie : String → MovieDoc) :
    ∀ (ns : List Int) (st st' : ScrapeState), StoreInv st →
      pageLoop cfg rng pages fetchMovie ns st = .ok st' → StoreInv st' := by
  intro ns
  induction ns with
  | nil => intro st st' hst h; cases h; exact hst
  | cons n rest ih =>
    intro st st' hst h
    rcases h1 : randomize_waiting_time cfg (rng st.rngIdx) with e | v <;>
      simp only [pageLoop, h1] at h
    · cases h
    rcases h2 : parse_page cfg.append_result st.exclude_ids (pages n) with e | urls <;>
      simp only [h2] at h
    · cases h
    rcases h3 : detailLoop cfg rng fetchMovie urls { st with rngIdx := st.rngIdx + 1 }
        with e | st1 <;> simp only [h3] at h
    · cases h
    rcases h4 : randomize_waiting_time cfg (rng st1.rngIdx) with e | v4 <;>
      simp only [h4] at h
    · cases h
    refine ih _ st' ?_ h
    have hst0 : StoreInv { st with rngIdx := st.rngIdx + 1 } := by
      unfold StoreInv at hst ⊢; simpa using hst
    have := detailLoop_storeInv cfg rng fetchMovie urls _ st1 hst0 h3
    unfold StoreInv at this ⊢
    simpa using this

lemma scraping_movies_storeInv (cfg : Config) (rng : Nat → Nat)
    (pages : Int → List String) (fetchMovie : String → MovieDoc)
    (st' : ScrapeState)
    (h : scraping_movies cfg rng pages fetchMovie initState = .ok st') :
    StoreInv st' :=
  pageLoop_storeInv cfg rng pages fetchMovie _ initState st'
    (Or.inl ⟨rfl, rfl⟩) h

lemma parse_movie_ok_spec {doc : MovieDoc} {st st' : ScrapeState}
    (h : parse_movie doc st = .ok st') :
    ∃ row log, parseFields doc = .ok (row, log) ∧
      st'.df = appendRecord st.df row ∧
      st'.file = some (fileOf (appendRecord st.df row)) := by
  rcases hp : parseFields doc with e | ⟨row, log⟩ <;> simp only [parse_movie, hp] at h
  · cases h
  · cases h
    exact ⟨row, log, rfl, rfl, rfl⟩

/-! ### The claims -/

/-- C1, counterexample: a run over one listing page with zero detail
links succeeds without ever writing the output file (`to_csv` is only
reached inside `_parse_movie`), so the persisted file does not exist
after a zero-record run — contradicting the claim that the persisted
file always exists with the 13-column schema. -/
theorem zero_record_run_writes_no_file :
    scraping_movies ⟨1, 1, (0, 1), false⟩ (fun _ => 0) (fun _ => [])
        (fun _ => noDoc) initState = .ok ⟨[], [], none, 2⟩ ∧
      (ScrapeState.mk [] [] none 2).file = none := by
  exact ⟨by decide, rfl⟩

/-- C1, amended: for every run from the fresh initial state that
completes, either zero records were produced and no output file was
written, or the persisted file holds exactly the current table under the
fixed 13-column header with one row per unique id. -/
theorem run_file_schema_unique_ids (cfg : Config) (rng : Nat → Nat)
    (pages : Int → List String) (fetch : String → MovieDoc) (st' : ScrapeState)
    (hrun : scraping_movies cfg rng pages fetch initState = .ok st') :
    movie_infos.length = 13 ∧
    ((st'.df = [] ∧ st'.file = none) ∨
      (st'.file = some { header := movie_infos, rows := st'.df } ∧
        (st'.df.map rowId).Nodup)) := by
  refine ⟨by decide, ?_⟩
  have h := scraping_movies_storeInv cfg rng pages fetch st' hrun
  unfold StoreInv fileOf at h
  exact h

/-- C1, witness: a fresh one-page, one-link run over a fully populated
document ends with the file holding the single deduplicated row. -/
theorem run_file_schema_unique_ids_witness :
    movie_infos.length = 13 ∧
    ((goodRunState.df = [] ∧ goodRunState.file = none) ∨
      (goodRunState.file = some { header := movie_infos, rows := goodRunState.df } ∧
        (goodRunState.df.map rowId).Nodup)) :=
  run_file_schema_unique_ids ⟨1, 1, (0, 1), false⟩ (fun _ => 0)
    (fun _ => ["/film/fichefilm_gen_cfilm=275220.html"]) (fun _ => goodDoc)
    goodRunState (by decide)

/-- C2, counterexample: on a detail page whose home span is missing,
`_get_movie_id` raises `TypeError` (subscripting `None`), which the
per-field handler (catching only `AttributeError`) does not catch, so
the whole run aborts — contradicting the claim that the orchestrator
continues with the next detail link. -/
theorem missing_id_aborts_run_concrete :
    scraping_movies ⟨1, 1, (0, 1), false⟩ (fun _ => 0)
      (fun _ => ["/film/fichefilm_gen_cfilm=275220.html", "/film/fichefilm_gen_cfilm=1.html"])
      (fun _ => noDoc) initState = .error PyExc.typeError := by
  decide

/-- C2, amended: when the id extractor cannot locate its element, its
`TypeError` escapes the per-field handler: the record is abandoned and
not persisted, and the exception propagates out of the detail loop,
aborting the run. -/
theorem missing_id_typeerror_uncaught (doc : MovieDoc)
    (h : doc.home_href = none) :
    parseFields doc = .error PyExc.typeError ∧
    (∀ st, parse_movie doc st = .error PyExc.typeError) ∧
    (∀ cfg rng fetch url rest st, fetch url = doc →
      detailLoop cfg rng fetch (url :: rest) st = .error PyExc.typeError) := by
  have h1 : parseFields doc = .error PyExc.typeError := by
    simp [parseFields, movie_infos, parseFieldsGo, getInfo, get_movie_id, h]
  have h2 : ∀ st, parse_movie doc st = .error PyExc.typeError := by
    intro st; simp [parse_movie, h1]
  refine ⟨h1, h2, ?_⟩
  intro cfg rng fetch url rest st hf
  simp [detailLoop, hf, h2 st]

/-- C2, witness: the record of the home-span-less document is not
persisted; `_parse_movie` raises instead. -/
theorem missing_id_typeerror_uncaught_witness :
    parse_movie noDoc initState = .error PyExc.typeError :=
  (missing_id_typeerror_uncaught noDoc rfl).2.1 initState

/-- C3, counterexample: an unparseable press score makes the
press-rating extractor raise `ValueError` (`float("N/A")`); the caller
catches only `AttributeError`, so the fault propagates, the record is
not persisted, and the remaining fields are lost — contradicting the
claim that any unexpected fault is caught and the record still
persisted.  The id of the same document extracts fine. -/
theorem valueerror_not_caught_concrete :
    get_movie_id badPressDoc = .ok (Val.int 275220) ∧
    parseFields badPressDoc = .error PyExc.valueError ∧
    parse_movie badPressDoc initState = .error PyExc.valueError := by
  exact ⟨by decide, by decide, by decide⟩

/-- C4: with pause range (5, 10) every generated pause lies in
[5, 10] (the generator draws from [5, 10), a subset); range (0, 1) is
accepted at configuration time and (5, 3) is rejected there. -/
theorem pause_bound_and_config_validation :
    (∀ (cfg : Config) (r : Nat), cfg.pause_scraping = (5, 10) →
      ∃ v, randomize_waiting_time cfg r = .ok v ∧ 5 ≤ v ∧ v ≤ 10) ∧
    validate_pause_range (0, 1) = .ok (0, 1) ∧
    mkScraperConfig 10 1 (0, 1) false = .ok ⟨10, 1, (0, 1), false⟩ ∧
    validate_pause_range (5, 3) = .error PyExc.valueError ∧
    mkScraperConfig 10 1 (5, 3) false = .error PyExc.valueError := by
  refine ⟨?_, by decide, by decide, by decide, by decide⟩
  intro cfg r hp
  refine ⟨5 + (r : ℤ) % 5, ?_, ?_, ?_⟩
  · norm_num [randomize_waiting_time, randrange, hp]
  · have h0 : (0 : ℤ) ≤ (r : ℤ) % 5 := Int.emod_nonneg _ (by norm_num)
    omega
  · have h5 : (r : ℤ) % 5 < 5 := Int.emod_lt_of_pos _ (by norm_num)
    omega

/-- C4, witness: one concrete draw with range (5, 10). -/
theorem pause_bound_and_config_validation_witness :
    ∃ v, randomize_waiting_time ⟨10, 1, (5, 10), false⟩ 7 = .ok v ∧ 5 ≤ v ∧ v ≤ 10 :=
  pause_bound_and_config_validation.1 ⟨10, 1, (5, 10), false⟩ 7 rfl

/-- C6: after every append the store has at most one row per id; every
successful `_parse_movie` leaves a duplicate-free table persisted as the
whole file; and appending the same record twice to an empty store
leaves exactly that one record, in the table and in the file. -/
theorem store_unique_ids_invariant :
    (∀ (df : List Row) (r : Row), ((appendRecord df r).map rowId).Nodup) ∧
    (∀ (doc : MovieDoc) (st st' : ScrapeState), parse_movie doc st = .ok st' →
      (st'.df.map rowId).Nodup ∧ st'.file = some (fileOf st'.df)) ∧
    (∀ r : Row, appendRecord (appendRecord [] r) r = [r] ∧
      (fileOf (appendRecord (appendRecord [] r) r)).rows = [r]) := by
  refine ⟨appendRecord_ids_nodup, ?_, ?_⟩
  · intro doc st st' h
    obtain ⟨row, log, _, hdf, hfile⟩ := parse_movie_ok_spec h
    rw [hdf, hfile]
    exact ⟨appendRecord_ids_nodup st.df row, rfl⟩
  · intro r
    have h1 : appendRecord [] r = [r] := appendRecord_nil r
    have h2 : appendRecord [r] r = [r] := by
      refine appendRecord_mem_id [r] r ?_ (by simp)
      simp
    rw [h1, h2]
    exact ⟨rfl, rfl⟩

/-- C6, witness: the double append of the concrete `goodDoc` record via
`_parse_movie` from the fresh state. -/
theorem store_unique_ids_invariant_witness :
    (goodRowState.df.map rowId).Nodup ∧
      goodRowState.file = some (fileOf goodRowState.df) :=
  store_unique_ids_invariant.2.1 goodDoc goodRowState goodRowState (by decide)

/-- C7: requesting append mode with an unloadable prior snapshot makes
scraper construction fail with `FileNotFoundError` before any fetch —
the whole program run fails with that error no matter what the transport
would have returned, and construction never yields a state. -/
theorem append_load_failure_fatal (cfg : Config) (h : cfg.append_result = true) :
    scraper_init cfg none = .error PyExc.fileNotFoundError ∧
    (∀ st, scraper_init cfg none ≠ .ok st) ∧
    (∀ rng pages fetch, run_scraper cfg none rng pages fetch =
      .error PyExc.fileNotFoundError) ∧
    (∀ f e rng pages fetch, derive_exclude_ids f.rows = .error e →
      run_scraper cfg (some f) rng pages fetch = .error PyExc.fileNotFoundError) := by
  have h1 : scraper_init cfg none = .error PyExc.fileNotFoundError := by
    simp [scraper_init, h]
  refine ⟨h1, ?_, ?_, ?_⟩
  · intro st hst
    rw [h1] at hst
    cases hst
  · intro rng pages fetch
    simp [run_scraper, h1]
  · intro f e rng pages fetch hd
    simp [run_scraper, scraper_init, h, hd]

/-- C7, witness: a concrete append-mode run with a missing snapshot. -/
theorem append_load_failure_fatal_witness :
    run_scraper ⟨1, 1, (0, 1), true⟩ none (fun _ => 0) (fun _ => [])
      (fun _ => noDoc) = .error PyExc.fileNotFoundError :=
  (append_load_failure_fatal ⟨1, 1, (0, 1), true⟩ rfl).2.2.1
    (fun _ => 0) (fun _ => []) (fun _ => noDoc)

/-- C8: the rating-score extractor parses "2,4" to the decimal 24/10^1,
whose value is the rational 2.4 (comma normalized to a period before
parsing), and the duration extractor parses "2h 2min" to 122 minutes. -/
theorem numeric_parsing_examples :
    get_movie_spec_rating goodDoc = .ok (Val.dec 24 1) ∧
    pyFloat (commaToDot "2,4") = .ok (Val.dec 24 1) ∧
    decToRat 24 1 = 2.4 ∧
    get_movie_duration goodDoc = .ok (Val.int 122) ∧
    pdToTimedeltaMinutes "2h 2min" = .ok 122 := by
  refine ⟨by decide, by decide, ?_, by decide, by decide⟩
  norm_num [decToRat]

/-- C9: configuration validation accepts a degenerate pause range
(n, n) (it rejects only min > max), but every pause draw then raises
`ValueError` (`randrange` over an empty range), so any run with at least
one page to scrape crashes at its first pause, whatever the transport
would have returned. -/
theorem degenerate_pause_range_crashes (cfg : Config) (n : Int)
    (hp : cfg.pause_scraping = (n, n)) (hnp : 0 < cfg.number_of_pages) :
    validate_pause_range (n, n) = .ok (n, n) ∧
    (∀ r, randomize_waiting_time cfg r = .error PyExc.valueError) ∧
    (∀ rng pages fetch st,
      scraping_movies cfg rng pages fetch st = .error PyExc.valueError) := by
  have hr : ∀ r : Nat, randomize_waiting_time cfg r = .error PyExc.valueError := by
    intro r
    simp [randomize_waiting_time, randrange, hp]
  refine ⟨by simp [validate_pause_range], hr, ?_⟩
  intro rng pages fetch st
  unfold scraping_movies
  obtain ⟨k, hk⟩ : ∃ k, cfg.number_of_pages.toNat = k + 1 :=
    ⟨cfg.number_of_pages.toNat - 1, by omega⟩
  rw [hk, List.range_succ_eq_map]
  simp only [List.map_cons, pageLoop, hr]

/-- C9, witness: a concrete run with pause range (3, 3) crashes with
`ValueError` before any record is scraped. -/
theorem degenerate_pause_range_crashes_witness :
    scraping_movies ⟨1, 1, (3, 3), false⟩ (fun _ => 0) (fun _ => [])
      (fun _ => noDoc) initState = .error PyExc.valueError :=
  (degenerate_pause_range_crashes ⟨1, 1, (3, 3), false⟩ 3 rfl (by norm_num)).2.2
    (fun _ => 0) (fun _ => []) (fun _ => noDoc) initState

/-- C10: duplicate resolution is first-write-wins: appending a record
whose id already occurs in the (duplicate-free) store leaves the table —
and hence the persisted file — exactly as it was; the new record's
values are discarded (`drop_duplicates` keeps the first occurrence). -/
theorem duplicate_id_first_write_wins (df : List Row) (r' : Row)
    (hnd : (df.map rowId).Nodup) (hmem : rowId r' ∈ df.map rowId) :
    appendRecord df r' = df ∧ fileOf (appendRecord df r') = fileOf df := by
  have h := appendRecord_mem_id df r' hnd hmem
  exact ⟨h, by rw [h]⟩

/-- C10, witness: re-inserting id 275220 with different field values
leaves the original row untouched. -/
theorem duplicate_id_first_write_wins_witness :
    appendRecord [goodRow] goodRowAlt = [goodRow] ∧
      fileOf (appendRecord [goodRow] goodRowAlt) = fileOf [goodRow] :=
  duplicate_id_first_write_wins [goodRow] goodRowAlt (by decide) (by decide)

/-! ### The dedup/exclusion filter -/

lemma filterUrls_forall₂ {urls : List String} {ids : List Int}
    (h : List.Forall₂ (fun u i => parseUrlId u = .ok i) urls ids) (excl : List Int) :
    ∃ res, filterUrls excl urls = .ok res ∧
      res.Sublist urls ∧
      res.length = (ids.filter (fun i => decide (i ∉ excl))).length ∧
      (∀ u ∈ res, ∀ j, parseUrlId u = .ok j → j ∉ excl) := by
  induction h with
  | nil => exact ⟨[], rfl, List.Sublist.refl _, by simp, by simp⟩
  | @cons u i urls' ids' h1 h2 ih =>
    obtain ⟨res, hrun, hsub, hlen, hmem⟩ := ih
    by_cases hi : i ∈ excl
    · refine ⟨res, ?_, hsub.cons _, ?_, hmem⟩
      · simp [filterUrls, h1, hrun, hi]
      · simpa [List.filter_cons, hi] using hlen
    · refine ⟨u :: res, ?_, hsub.cons₂ _, ?_, ?_⟩
      · simp [filterUrls, h1, hrun, hi]
      · simpa [List.filter_cons, hi] using hlen
      · intro u' hu' j hj
        rcases List.mem_cons.mp hu' with rfl | hu'
        · rw [h1] at hj
          cases hj
          exact hi
        · exact hmem u' hu' j hj

lemma length_filter_split (l : List Int) (p : Int → Bool) :
    (l.filter p).length + (l.filter (fun i => ! p i)).length = l.length := by
  induction l with
  | nil => simp
  | cons a l ih =>
    by_cases ha : p a <;> simp [List.filter_cons, ha] <;> omega

lemma length_filter_mem (ids excl : List Int) (h1 : ids.Nodup)
    (h2 : excl.Nodup) (h3 : ∀ e ∈ excl, e ∈ ids) :
    (ids.filter (fun i => decide (i ∈ excl))).length = excl.length := by
  have hnd : (ids.filter (fun i => decide (i ∈ excl))).Nodup := h1.filter _
  have hfin : (ids.filter (fun i => decide (i ∈ excl))).toFinset = excl.toFinset := by
    ext x
    simp only [List.mem_toFinset, List.mem_filter, decide_eq_true_eq]
    exact ⟨fun h => h.2, fun h => ⟨h3 x h, h⟩⟩
  calc (ids.filter (fun i => decide (i ∈ excl))).length
      = (ids.filter (fun i => decide (i ∈ excl))).toFinset.card :=
        (List.toFinset_card_of_nodup hnd).symm
    _ = excl.toFinset.card := by rw [hfin]
    _ = excl.length := List.toFinset_card_of_nodup h2

lemma length_filter_not_mem (ids excl : List Int) (h1 : ids.Nodup)
    (h2 : excl.Nodup) (h3 : ∀ e ∈ excl, e ∈ ids) :
    (ids.filter (fun i => decide (i ∉ excl))).length = ids.length - excl.length := by
  have hs := length_filter_split ids (fun i => decide (i ∈ excl))
  have hm := length_filter_mem ids excl h1 h2 h3
  have he : (ids.filter (fun i => ! decide (i ∈ excl))) =
      (ids.filter (fun i => decide (i ∉ excl))) := by
    simp
  rw [he] at hs
  omega

/-- C5, counterexample: two links embedding the same id 1, exclusion
set of size k = 1 containing it: the filter removes both links, so the
result has length 0, not N − k = 1 — the claimed length holds only when
the links' embedded ids are pairwise distinct. -/
theorem dedup_filter_duplicate_ids_concrete :
    parse_page true [1] ["/a=1.html", "/b=1.html"] = .ok [] ∧
      ([] : List String).length ≠ 2 - 1 :=
  ⟨by decide, by decide⟩

/-- C5, amended: when the links' embedded ids are pairwise distinct and
the exclusion set (duplicate-free, all members occurring among the ids)
has size k, the filter keeps, in order, exactly the links whose id is
not excluded — an order-preserving sub-sequence of length N − k with no
excluded id; and the filter is the identity when append mode is off or
the exclusion set is empty. -/
theorem dedup_filter_correct (urls : List String) (ids excl : List Int)
    (hpar : List.Forall₂ (fun u i => parseUrlId u = .ok i) urls ids)
    (hnd : ids.Nodup) (hexnd : excl.Nodup) (hsub : ∀ e ∈ excl, e ∈ ids) :
    (∃ res, parse_page true excl urls = .ok res ∧
      res.Sublist urls ∧
      res.length = urls.length - excl.length ∧
      (∀ u ∈ res, ∀ j, parseUrlId u = .ok j → j ∉ excl)) ∧
    parse_page false excl urls = .ok urls ∧
    (∀ b, parse_page b [] urls = .ok urls) := by
  refine ⟨?_, by simp [parse_page], by intro b; simp [parse_page]⟩
  by_cases hexcl : excl = []
  · subst hexcl
    exact ⟨urls, by simp [parse_page], List.Sublist.refl _,
      by simp [hpar.length_eq], by simp⟩
  · obtain ⟨res, hrun, hsub', hlen, hmem⟩ := filterUrls_forall₂ hpar excl
    have hne : excl.isEmpty = false := by
      simpa [List.isEmpty_iff] using hexcl
    refine ⟨res, ?_, hsub', ?_, hmem⟩
    · simp [parse_page, hne, hrun]
    · rw [hlen, length_filter_not_mem ids excl hnd hexnd hsub, hpar.length_eq]

/-- C5, witness: three links with distinct ids 1, 2, 3 and exclusion
set containing 2. -/
theorem dedup_filter_correct_witness :
    (∃ res, parse_page true [2] ["/a=1.html", "/b=2.html", "/c=3.html"] = .ok res ∧
      res.Sublist ["/a=1.html", "/b=2.html", "/c=3.html"] ∧
      res.length = ["/a=1.html", "/b=2.html", "/c=3.html"].length - [2].length ∧
      (∀ u ∈ res, ∀ j, parseUrlId u = .ok j → j ∉ [2])) ∧
    parse_page false [2] ["/a=1.html", "/b=2.html", "/c=3.html"] =
      .ok ["/a=1.html", "/b=2.html", "/c=3.html"] ∧
    (∀ b, parse_page b [] ["/a=1.html", "/b=2.html", "/c=3.html"] =
      .ok ["/a=1.html", "/b=2.html", "/c=3.html"]) :=
  dedup_filter_correct ["/a=1.html", "/b=2.html", "/c=3.html"] [1, 2, 3] [2]
    (.cons (by decide) (.cons (by decide) (.cons (by decide) .nil)))
    (by decide) (by decide) (by decide)

/-! ### Per-field fault isolation in `_parse_movie` -/

lemma pyGet_append_ne (acc : Row) (i k : String) (v : Val) (h : i ≠ k) :
    pyGet (acc ++ [(i, v)]) k = pyGet acc k := by
  unfold pyGet
  rw [List.find?_append]
  have h2 : List.find? (fun p => p.1 == k) [(i, v)] = none := by
    simp [List.find?_cons, h]
  rw [h2]
  cases List.find? (fun p => p.1 == k) acc <;> simp

lemma pyGet_map_self (f : String → Val) :
    ∀ (infos : List String) (i : String), i ∈ infos →
      pyGet (infos.map (fun s => (s, f s))) i = some (f i) := by
  intro infos
  induction infos with
  | nil => intro i hi; cases hi
  | cons j rest ih =>
    intro i hi
    rcases eq_or_ne j i with rfl | hne
    · simp [pyGet, List.find?_cons]
    · rcases List.mem_cons.mp hi with rfl | hi'
      · exact absurd rfl hne
      · have hrec := ih i hi'
        unfold pyGet at hrec ⊢
        simpa [List.find?_cons, hne] using hrec

lemma parseFieldsGo_spec (doc : MovieDoc) :
    ∀ (infos : List String) (acc : Row) (log : List (Option Val × String)),
      (∀ i ∈ infos, fieldFails doc i = true →
        getInfo doc i = .error PyExc.attributeError) →
      "id" ∉ infos →
      parseFieldsGo doc infos acc log =
        .ok (acc ++ infos.map (fun i => (i, extractVal doc i)),
             log ++ (infos.filter (fieldFails doc)).map
               (fun i => (pyGet acc "id", i))) := by
  intro infos
  induction infos with
  | nil => intro acc log _ _; simp [parseFieldsGo]
  | cons i rest ih =>
    intro acc log herr hid
    have hid' : "id" ∉ rest := fun h => hid (List.mem_cons_of_mem _ h)
    have hine : i ≠ "id" := fun h => hid (h ▸ List.mem_cons_self _ _)
    have herr' : ∀ j ∈ rest, fieldFails doc j = true →
        getInfo doc j = .error PyExc.attributeError :=
      fun j hj => herr j (List.mem_cons_of_mem _ hj)
    rcases hg : getInfo doc i with e | v
    · have hfail : fieldFails doc i = true := by simp [fieldFails, hg]
      have hattr := herr i (List.mem_cons_self _ _) hfail
      rw [hg] at hattr
      cases hattr
      have hv : extractVal doc i = Val.null := by simp [extractVal, hg]
      simp only [parseFieldsGo, hg]
      rw [ih (acc ++ [(i, Val.null)]) (log ++ [(pyGet acc "id", i)]) herr' hid']
      simp [List.filter_cons, hfail, hv, pyGet_append_ne acc i "id" Val.null hine,
        List.append_assoc]
    · have hfail : fieldFails doc i = false := by simp [fieldFails, hg]
      have hv : extractVal doc i = v := by simp [extractVal, hg]
      simp only [parseFieldsGo, hg]
      rw [ih (acc ++ [(i, v)]) log herr' hid']
      simp [List.filter_cons, hfail, hv, pyGet_append_ne acc i "id" v hine,
        List.append_assoc]

lemma parseFieldsGo_cons_ok (doc : MovieDoc) (i : String) (rest : List String)
    (acc : Row) (log : List (Option Val × String)) (v : Val)
    (hg : getInfo doc i = .ok v) :
    parseFieldsGo doc (i :: rest) acc log =
      parseFieldsGo doc rest (acc ++ [(i, v)]) log := by
  simp [parseFieldsGo, hg]

lemma parseFieldsGo_cons_attr (doc : MovieDoc) (i : String) (rest : List String)
    (acc : Row) (log : List (Option Val × String))
    (hg : getInfo doc i = .error PyExc.attributeError) :
    parseFieldsGo doc (i :: rest) acc log =
      parseFieldsGo doc rest (acc ++ [(i, Val.null)]) (log ++ [(pyGet acc "id", i)]) := by
  simp [parseFieldsGo, hg]

lemma parseFields_spec (doc : MovieDoc)
    (herr : ∀ i ∈ movie_infos, fieldFails doc i = true →
      getInfo doc i = .error PyExc.attributeError) :
    ∃ pre, parseFields doc =
      .ok (movie_infos.map (fun i => (i, extractVal doc i)),
           pre ++ ((movie_infos.tail).filter (fieldFails doc)).map
             (fun i => (some (extractVal doc "id"), i))) := by
  have hid' : "id" ∉ movie_infos.tail := by decide
  have herr' : ∀ j ∈ movie_infos.tail, fieldFails doc j = true →
      getInfo doc j = .error PyExc.attributeError :=
    fun j hj => herr j (List.mem_of_mem_tail hj)
  have hcons : movie_infos = "id" :: movie_infos.tail := rfl
  have e1 : parseFields doc = parseFieldsGo doc ("id" :: movie_infos.tail) [] [] := rfl
  rcases hg : getInfo doc "id" with e | v
  · have hfail : fieldFails doc "id" = true := by simp [fieldFails, hg]
    have hattr := herr "id" (by decide) hfail
    rw [hg] at hattr
    cases hattr
    have hv : extractVal doc "id" = Val.null := by simp [extractVal, hg]
    refine ⟨[(none, "id")], ?_⟩
    have hstep := parseFieldsGo_cons_attr doc "id" movie_infos.tail [] [] hg
    simp only [List.nil_append] at hstep
    rw [e1, hstep,
      parseFieldsGo_spec doc movie_infos.tail [("id", Val.null)] [(pyGet [] "id", "id")]
        herr' hid']
    have hmap : [("id", Val.null)] ++ (movie_infos.tail).map (fun i => (i, extractVal doc i))
        = movie_infos.map (fun i => (i, extractVal doc i)) := by
      conv_rhs => rw [hcons]
      rw [List.map_cons, hv]
      rfl
    have hlk : pyGet [("id", Val.null)] "id" = some (extractVal doc "id") := by
      simp [pyGet, List.find?_cons, hv]
    have hnil : pyGet ([] : Row) "id" = none := rfl
    rw [hmap]
    simp only [hlk, hnil]
  · have hv : extractVal doc "id" = v := by simp [extractVal, hg]
    refine ⟨[], ?_⟩
    have hstep := parseFieldsGo_cons_ok doc "id" movie_infos.tail [] [] v hg
    simp only [List.nil_append] at hstep
    rw [e1, hstep,
      parseFieldsGo_spec doc movie_infos.tail [("id", v)] [] herr' hid']
    have hmap : [("id", v)] ++ (movie_infos.tail).map (fun i => (i, extractVal doc i))
        = movie_infos.map (fun i => (i, extractVal doc i)) := by
      conv_rhs => rw [hcons]
      rw [List.map_cons, hv]
      rfl
    have hlk : pyGet [("id", v)] "id" = some (extractVal doc "id") := by
      simp [pyGet, List.find?_cons, hv]
    rw [hmap]
    simp only [hlk, List.nil_append]

/-- C3, amended: per-field isolation holds exactly for `AttributeError`
(the fault class a missing markup substructure raises): when every
failing extractor of a document raises `AttributeError`, the caller
catches each fault, stores `None` for that field, logs the current known
id with the field name, leaves every other field's value intact, and
still persists the record; a fault of any other class propagates instead
(see the counterexample). -/
theorem attributeerror_isolated_per_field (doc : MovieDoc)
    (herr : ∀ i ∈ movie_infos, fieldFails doc i = true →
      getInfo doc i = .error PyExc.attributeError) :
    ∃ rec log, parseFields doc = .ok (rec, log) ∧
      (∀ i ∈ movie_infos, pyGet rec i = some (extractVal doc i)) ∧
      (∀ i ∈ movie_infos, getInfo doc i = .error PyExc.attributeError →
        pyGet rec i = some Val.null ∧
          (i ≠ "id" → (some (extractVal doc "id"), i) ∈ log)) ∧
      (∀ st, ∃ st', parse_movie doc st = .ok st' ∧
        st'.df = appendRecord st.df rec ∧
        st'.file = some (fileOf (appendRecord st.df rec))) := by
  obtain ⟨pre, hrun⟩ := parseFields_spec doc herr
  refine ⟨_, _, hrun, ?_, ?_, ?_⟩
  · intro i hi
    exact pyGet_map_self (extractVal doc) movie_infos i hi
  · intro i hi hg
    have hv : extractVal doc i = Val.null := by simp [extractVal, hg]
    refine ⟨by rw [pyGet_map_self (extractVal doc) movie_infos i hi, hv], ?_⟩
    intro hne
    have hi' : i ∈ movie_infos.tail := by
      have hcons : movie_infos = "id" :: movie_infos.tail := rfl
      rw [hcons] at hi
      rcases List.mem_cons.mp hi with h | h
      · exact absurd h hne
      · exact h
    have hf : fieldFails doc i = true := by simp [fieldFails, hg]
    exact List.mem_append_right _
      (List.mem_map_of_mem _ (List.mem_filter.mpr ⟨hi', hf⟩))
  · intro st
    refine ⟨{ st with
        df := appendRecord st.df (movie_infos.map (fun i => (i, extractVal doc i)))
        file := some (fileOf (appendRecord st.df
          (movie_infos.map (fun i => (i, extractVal doc i))))) }, ?_, rfl, rfl⟩
    simp [parse_movie, hrun]

/-- C3, witness: a document whose titlebar is missing: the title
extractor's `AttributeError` is isolated, the record is persisted with
`None` for the title and the twelve other fields populated. -/
theorem attributeerror_isolated_per_field_witness :
    ∃ rec log, parseFields noTitleDoc = .ok (rec, log) ∧
      (∀ i ∈ movie_infos, pyGet rec i = some (extractVal noTitleDoc i)) ∧
      (∀ i ∈ movie_infos, getInfo noTitleDoc i = .error PyExc.attributeError →
        pyGet rec i = some Val.null ∧
          (i ≠ "id" → (some (extractVal noTitleDoc "id"), i) ∈ log)) ∧
      (∀ st, ∃ st', parse_movie noTitleDoc st = .ok st' ∧
        st'.df = appendRecord st.df rec ∧
        st'.file = some (fileOf (appendRecord st.df rec))) :=
  attributeerror_isolated_per_field noTitleDoc (by decide)

end Allocine
